import Mathlib

/-!
Shallow embedding of the uniai repository (Archie818/uniai): a unification
layer over several LLM vendor APIs.  The definitions below translate the
Python source under src/uniai into Lean: canonical value types
(src/uniai/core/types.py), bounded conversation memory
(src/uniai/context/memory.py), the shared wire preparation
(src/uniai/core/base.py), the vendor adapters and their error mapping
(src/uniai/providers/openai.py, deepseek.py, gemini.py), the provider
registry (src/uniai/providers/__init__.py) and the UniAI facade
(src/uniai/client.py).  Vendor transports are external collaborators, so
provider calls are modelled as functions of an explicit vendor outcome.
-/

namespace UniaiModel

/-- Message role, from src/uniai/core/types.py (class Role). -/
inductive Role where
  | system
  | user
  | assistant
deriving DecidableEq, Repr

/-- The string value of each role member, mirroring Role being a str Enum. -/
def Role.value : Role → String
  | .system => "system"
  | .user => "user"
  | .assistant => "assistant"

/-- A single conversation message, from src/uniai/core/types.py (class Message). -/
structure Message where
  role : Role
  content : String
deriving DecidableEq, Repr

/-- A role and content pair as sent on the vendor wire, the shape produced
by Message.to_dict in src/uniai/core/types.py. -/
structure WireMessage where
  role : String
  content : String
deriving DecidableEq, Repr

/-- Message.to_dict from src/uniai/core/types.py. -/
def Message.to_dict (m : Message) : WireMessage :=
  { role := m.role.value, content := m.content }

/-- Token usage information, from src/uniai/core/types.py (class Usage). -/
structure Usage where
  prompt_tokens : Nat
  completion_tokens : Nat
  total_tokens : Nat
deriving DecidableEq, Repr

/-- A chunk of a streamed response, from src/uniai/core/types.py
(class StreamChunk). -/
structure StreamChunk where
  content : String
  finish_reason : Option String
  is_final : Bool
deriving DecidableEq, Repr

/-- Python truthiness of an optional string: None and the empty string are
falsy, every other string is truthy. -/
def optStrTruthy : Option String → Bool
  | none => false
  | some s => !s.isEmpty

/-- Conversation memory, from src/uniai/context/memory.py (class Memory):
an ordered message log, an optional length bound and an optional system
prompt. -/
structure Memory where
  messages : List Message
  max_messages : Option Nat
  system_prompt : Option String
deriving DecidableEq, Repr

namespace Memory

/-- Memory._enforce_limit: drop messages from the front when a bound is
configured and the sequence is longer than the bound. -/
def enforce_limit (m : Memory) : Memory :=
  match m.max_messages with
  | none => m
  | some k =>
      if m.messages.length > k then
        { m with messages := m.messages.drop (m.messages.length - k) }
      else m

/-- Memory._add_message: append then enforce the bound. -/
def add_message (m : Memory) (msg : Message) : Memory :=
  enforce_limit { m with messages := m.messages ++ [msg] }

/-- Memory.add_user_message. -/
def add_user_message (m : Memory) (content : String) : Memory :=
  m.add_message { role := .user, content := content }

/-- Memory.add_assistant_message. -/
def add_assistant_message (m : Memory) (content : String) : Memory :=
  m.add_message { role := .assistant, content := content }

/-- Memory.add_system_message. -/
def add_system_message (m : Memory) (content : String) : Memory :=
  m.add_message { role := .system, content := content }

/-- Memory.get_context: the system prompt (when truthy) prepended as a
synthetic system message, followed by the stored messages. -/
def get_context (m : Memory) : List Message :=
  (if optStrTruthy m.system_prompt then
      [{ role := .system, content := m.system_prompt.getD "" }]
    else []) ++ m.messages

/-- Memory.clear: drop all messages, keep the system prompt. -/
def clear (m : Memory) : Memory :=
  { m with messages := [] }

/-- Memory.pop_last: remove and return the most recent message (None when
empty), paired with the updated memory. -/
def pop_last (m : Memory) : Option Message × Memory :=
  match m.messages.getLast? with
  | none => (none, m)
  | some msg => (some msg, { m with messages := m.messages.dropLast })

end Memory

/-- BaseProvider._prepare_messages from src/uniai/core/base.py: the shared
message-to-wire preparation.  The configured system prompt (when truthy) is
emitted first as a system-role entry, then every message converted by
Message.to_dict. -/
def prepare_messages (config_system_prompt : Option String)
    (messages : List Message) : List WireMessage :=
  (if optStrTruthy config_system_prompt then
      [{ role := "system", content := config_system_prompt.getD "" }]
    else []) ++ messages.map Message.to_dict

/-- Base provider configuration, from src/uniai/core/config.py
(class ProviderConfig).  The secret api key is modelled as a plain string. -/
structure ProviderConfig where
  api_key : String
  model : String
  base_url : Option String
  timeout : Rat
  max_retries : Nat
  temperature : Rat
  max_tokens : Option Nat
  system_prompt : Option String
deriving DecidableEq, Repr

/-- Default model of OpenAIConfig in src/uniai/core/config.py. -/
def OpenAIConfig_default_model : String := "gpt-4o-mini"

/-- Default base url of OpenAIConfig in src/uniai/core/config.py. -/
def OpenAIConfig_default_base_url : String := "https://api.openai.com/v1"

/-- Default model of DeepSeekConfig in src/uniai/core/config.py. -/
def DeepSeekConfig_default_model : String := "deepseek-chat"

/-- Default base url of DeepSeekConfig in src/uniai/core/config.py. -/
def DeepSeekConfig_default_base_url : String := "https://api.deepseek.com"

/-- Python `s or d` on strings: the empty string falls back to the default. -/
def pyOrStr (s : String) (d : String) : String :=
  if s.isEmpty then d else s

/-- Python `s or d` on an optional string: None and the empty string fall
back to the default. -/
def pyOrOptStr (s : Option String) (d : String) : String :=
  match s with
  | none => d
  | some v => if v.isEmpty then d else v

/-- A registered provider class.  The built-in registry of
src/uniai/providers/init holds OpenAIProvider and DeepSeekProvider; custom
classes added through register_provider are abstracted by an identifier. -/
inductive ProviderClass where
  | openai
  | deepseek
  | custom (id : Nat)
deriving DecidableEq, Repr

/-- Effective provider configuration after the per-vendor conversion done in
each provider constructor (the vendor subtype with its defaults applied). -/
structure EffectiveConfig where
  api_key : String
  model : String
  base_url : Option String
  timeout : Rat
  max_retries : Nat
  temperature : Rat
  max_tokens : Option Nat
  system_prompt : Option String
deriving DecidableEq, Repr

/-- The config conversion performed by each provider constructor.
OpenAIProvider (src/uniai/providers/openai.py) passes the model through
unchanged and applies `or` fallback only to base_url; DeepSeekProvider
(src/uniai/providers/deepseek.py) applies `or` fallback to both model and
base_url.  A custom class has no known conversion and is modelled as the
identity. -/
def providerEffectiveConfig : ProviderClass → ProviderConfig → EffectiveConfig
  | .openai, c =>
      { api_key := c.api_key
        model := c.model
        base_url := some (pyOrOptStr c.base_url OpenAIConfig_default_base_url)
        timeout := c.timeout
        max_retries := c.max_retries
        temperature := c.temperature
        max_tokens := c.max_tokens
        system_prompt := c.system_prompt }
  | .deepseek, c =>
      { api_key := c.api_key
        model := pyOrStr c.model DeepSeekConfig_default_model
        base_url := some (pyOrOptStr c.base_url DeepSeekConfig_default_base_url)
        timeout := c.timeout
        max_retries := c.max_retries
        temperature := c.temperature
        max_tokens := c.max_tokens
        system_prompt := c.system_prompt }
  | .custom _, c =>
      { api_key := c.api_key
        model := c.model
        base_url := c.base_url
        timeout := c.timeout
        max_retries := c.max_retries
        temperature := c.temperature
        max_tokens := c.max_tokens
        system_prompt := c.system_prompt }

/-- Python str.lower, applied character-wise. -/
def pyLower (s : String) : String :=
  ⟨s.data.map Char.toLower⟩

/-- The provider registry: an insertion-ordered mapping from name to class,
from src/uniai/providers/init (PROVIDERS dict). -/
abbrev Registry := List (String × ProviderClass)

/-- The built-in registry contents of src/uniai/providers/init. -/
def builtinRegistry : Registry :=
  [("openai", .openai), ("deepseek", .deepseek)]

/-- Dict lookup PROVIDERS.get(key). -/
def registryGet (reg : Registry) (key : String) : Option ProviderClass :=
  (reg.find? fun p => p.1 == key).map (·.2)

/-- register_provider from src/uniai/providers/init: dict assignment under
the lowered name (overwrite in place, else append). -/
def register_provider (reg : Registry) (name : String)
    (cls : ProviderClass) : Registry :=
  if reg.any (fun p => p.1 == pyLower name) then
    reg.map fun p => if p.1 == pyLower name then (p.1, cls) else p
  else
    reg ++ [(pyLower name, cls)]

/-- get_provider from src/uniai/providers/init: case-insensitive lookup,
raising ValueError with a message naming the attempted provider and the
known names when absent. -/
def get_provider (reg : Registry) (name : String) :
    Except String ProviderClass :=
  match registryGet reg (pyLower name) with
  | some cls => .ok cls
  | none =>
      .error ("Unknown provider: " ++ name ++ ". Available: "
        ++ String.intercalate ", " (reg.map (·.1)))

/-- The unified error taxonomy of src/uniai/exceptions.py.  RateLimitError
and AuthenticationError are subclasses of APIError in the source; they are
separate constructors here, with the classification captured by
UniAIError.isClassifiedAPIFailure. -/
inductive UniAIError where
  | configurationError (message : String)
  | providerError (provider : String) (message : String)
  | apiError (message : String) (status_code : Option Int)
  | rateLimitError (message : String) (status_code : Option Int)
  | authenticationError (message : String) (status_code : Option Int)
deriving DecidableEq, Repr

/-- Whether an error belongs to the classified transport-failure taxonomy
APIError / RateLimitError / AuthenticationError of src/uniai/exceptions.py. -/
def UniAIError.isClassifiedAPIFailure : UniAIError → Bool
  | .apiError _ _ => true
  | .rateLimitError _ _ => true
  | .authenticationError _ _ => true
  | _ => false

/-- The vendor-native exception kinds distinguished by
OpenAIProvider._handle_error (openai.AuthenticationError,
openai.RateLimitError, openai.APIConnectionError, anything else). -/
inductive OpenAIVendorError where
  | authenticationFailure
  | rateLimitFailure
  | connectionFailure (description : String)
  | otherFailure (description : String)
deriving DecidableEq, Repr

/-- OpenAIProvider._handle_error from src/uniai/providers/openai.py. -/
def openaiHandleError : OpenAIVendorError → UniAIError
  | .authenticationFailure =>
      .authenticationError "Invalid API key or unauthorized access" (some 401)
  | .rateLimitFailure =>
      .rateLimitError "Rate limit exceeded. Please try again later." (some 429)
  | .connectionFailure d =>
      .apiError ("Failed to connect to OpenAI API: " ++ d) none
  | .otherFailure d =>
      .apiError ("OpenAI API error: " ++ d) none

/-- DeepSeekProvider._handle_error from src/uniai/providers/deepseek.py. -/
def deepseekHandleError : OpenAIVendorError → UniAIError
  | .authenticationFailure =>
      .authenticationError "Invalid API key or unauthorized access" (some 401)
  | .rateLimitFailure =>
      .rateLimitError "Rate limit exceeded. Please try again later." (some 429)
  | .connectionFailure d =>
      .apiError ("Failed to connect to DeepSeek API: " ++ d) none
  | .otherFailure d =>
      .apiError ("DeepSeek API error: " ++ d) none

/-- The vendor-native exception kinds distinguished by
GeminiProvider._handle_error (google Unauthenticated, ResourceExhausted,
GoogleAPIError with an optional code attribute, anything else). -/
inductive GeminiVendorError where
  | unauthenticated (description : String)
  | resourceExhausted (description : String)
  | googleAPIFailure (description : String) (code : Option Int)
  | otherFailure (description : String)
deriving DecidableEq, Repr

/-- GeminiProvider._handle_error from src/uniai/providers/gemini.py.  The
boolean records whether google.api_core is importable; when it is not, every
failure maps to the generic APIError fallback. -/
def geminiHandleError (apiCoreAvailable : Bool) :
    GeminiVendorError → UniAIError
  | e =>
      if apiCoreAvailable then
        match e with
        | .unauthenticated _ =>
            .authenticationError
              "Invalid Gemini API key or unauthorized access" (some 401)
        | .resourceExhausted _ =>
            .rateLimitError
              "Gemini rate limit exceeded. Please try again later." (some 429)
        | .googleAPIFailure d code =>
            .apiError ("Gemini API error: " ++ d) code
        | .otherFailure d => .apiError ("Gemini API error: " ++ d) none
      else
        match e with
        | .unauthenticated d => .apiError ("Gemini API error: " ++ d) none
        | .resourceExhausted d => .apiError ("Gemini API error: " ++ d) none
        | .googleAPIFailure d _ => .apiError ("Gemini API error: " ++ d) none
        | .otherFailure d => .apiError ("Gemini API error: " ++ d) none

/-- The delta of one OpenAI-style stream choice (delta.content). -/
structure OAIDelta where
  content : Option String
deriving DecidableEq, Repr

/-- One choice of an OpenAI-style stream event. -/
structure OAIChoice where
  delta : OAIDelta
  finish_reason : Option String
deriving DecidableEq, Repr

/-- One event delivered by the OpenAI-style vendor stream (chunk.choices). -/
structure OAIStreamEvent where
  choices : List OAIChoice
deriving DecidableEq, Repr

/-- The chunks yielded for one vendor event by the loop body of
OpenAIProvider.stream_chat (identical in DeepSeekProvider.stream_chat):
skip events without choices; yield the content with
is_final = (finish_reason is not None) when delta.content is truthy; else
yield an empty final chunk when finish_reason is truthy; else nothing. -/
def openaiYieldForEvent (ev : OAIStreamEvent) : List StreamChunk :=
  match ev.choices with
  | [] => []
  | choice :: _ =>
      if optStrTruthy choice.delta.content then
        [{ content := choice.delta.content.getD ""
           finish_reason := choice.finish_reason
           is_final := choice.finish_reason.isSome }]
      else if optStrTruthy choice.finish_reason then
        [{ content := "", finish_reason := choice.finish_reason,
           is_final := true }]
      else []

/-- OpenAIProvider.stream_chat (and DeepSeekProvider.stream_chat) on a
vendor stream that completes by delivering the given events: the
concatenation of the per-event yields.  No terminal chunk is synthesized
beyond what the events carry. -/
def openaiStreamChunks (events : List OAIStreamEvent) : List StreamChunk :=
  events.flatMap openaiYieldForEvent

/-- A vendor event with a single choice carrying only content. -/
def contentEvent (t : String) : OAIStreamEvent :=
  { choices := [{ delta := { content := some t }, finish_reason := none }] }

/-- A vendor event with a single choice carrying only a finish reason. -/
def finishEvent (r : String) : OAIStreamEvent :=
  { choices := [{ delta := { content := none }, finish_reason := some r }] }

/-- GeminiProvider.stream_chat from src/uniai/providers/gemini.py on a
vendor stream delivering the given text chunks: yield each truthy text as a
non-final chunk, then always synthesize one final chunk with empty content
and finish reason stop. -/
def geminiStreamChunks (texts : List String) : List StreamChunk :=
  (texts.flatMap fun t =>
      if t.isEmpty then []
      else [{ content := t, finish_reason := none, is_final := false }])
    ++ [{ content := "", finish_reason := some "stop", is_final := true }]

/-- The facade state of a UniAI instance, from src/uniai/client.py: the
lowered provider name, the active provider class, the provider effective
config and the memory. -/
structure UniAIState where
  provider_name : String
  provider_class : ProviderClass
  config : EffectiveConfig
  memory : Memory
deriving DecidableEq, Repr

namespace UniAI

/-- UniAI._create_provider from src/uniai/client.py: resolve the class via
get_provider and wrap any ValueError as a ConfigurationError. -/
def create_provider (reg : Registry) (name : String) :
    Except UniAIError ProviderClass :=
  match get_provider reg name with
  | .ok cls => .ok cls
  | .error msg => .error (.configurationError msg)

/-- UniAI init from src/uniai/client.py: lower the provider name, build the
memory, build a ProviderConfig with `model or ""`, then resolve and
construct the provider (whose constructor applies the vendor conversion).
Resolution failure raises before any state exists. -/
def init (reg : Registry) (provider api_key : String)
    (model base_url system_prompt : Option String)
    (temperature : Rat) (max_tokens max_history : Option Nat)
    (timeout : Rat) (max_retries : Nat) : Except UniAIError UniAIState :=
  let name := pyLower provider
  let mem : Memory :=
    { messages := [], max_messages := max_history,
      system_prompt := system_prompt }
  let cfg : ProviderConfig :=
    { api_key := api_key, model := model.getD "", base_url := base_url,
      timeout := timeout, max_retries := max_retries,
      temperature := temperature, max_tokens := max_tokens,
      system_prompt := system_prompt }
  match create_provider reg name with
  | .error e => .error e
  | .ok cls =>
      .ok { provider_name := name, provider_class := cls,
            config := providerEffectiveConfig cls cfg, memory := mem }

/-- The wire-format message list a chat or stream call hands to the vendor
transport: UniAI.chat appends the user message to memory and passes
memory.messages through the shared BaseProvider._prepare_messages, which
prepends the provider config system prompt. -/
def chatWire (st : UniAIState) (message : String) : List WireMessage :=
  prepare_messages st.config.system_prompt
    ((st.memory.add_user_message message).messages)

/-- The outcome of the vendor round trip underlying one provider.chat call:
either a reply content, or a (classified) error raised by the adapter. -/
inductive ChatOutcome where
  | ok (content : String)
  | raise (e : UniAIError)
deriving DecidableEq, Repr

/-- UniAI.chat from src/uniai/client.py: append the user message, call the
provider, and on success append the reply as an assistant message and
return it; on provider failure the exception propagates and memory keeps
only the user message append. -/
def chat (st : UniAIState) (message : String) (outcome : ChatOutcome) :
    UniAIState × Except UniAIError String :=
  let mem1 := st.memory.add_user_message message
  match outcome with
  | .ok reply =>
      ({ st with memory := mem1.add_assistant_message reply }, .ok reply)
  | .raise e => ({ st with memory := mem1 }, .error e)

/-- The outcome of the provider stream underlying one UniAI.stream call:
the chunk sequence either completes normally or raises a (classified)
error after delivering a prefix of chunks. -/
inductive StreamOutcome where
  | completed (chunks : List StreamChunk)
  | failed (delivered : List StreamChunk) (e : UniAIError)
deriving DecidableEq, Repr

/-- The truthy chunk contents accumulated (and yielded) by UniAI.stream. -/
def streamedContents (chunks : List StreamChunk) : List String :=
  chunks.flatMap fun c => if c.content.isEmpty then [] else [c.content]

/-- UniAI.stream from src/uniai/client.py: append the user message, yield
every truthy chunk content while accumulating it, and append the joined
accumulation as one assistant message only when the provider stream
completes; a mid-stream provider failure propagates before that append. -/
def stream (st : UniAIState) (message : String) (outcome : StreamOutcome) :
    UniAIState × List String × Option UniAIError :=
  let mem1 := st.memory.add_user_message message
  match outcome with
  | .completed chunks =>
      ({ st with memory :=
          mem1.add_assistant_message (String.join (streamedContents chunks)) },
        streamedContents chunks, none)
  | .failed delivered e =>
      ({ st with memory := mem1 }, streamedContents delivered, some e)

/-- The keyword overrides accepted by UniAI.switch_provider; an absent entry
means kwargs.get falls back to the previous provider config (or, for the
system prompt, to the memory system prompt). -/
structure SwitchKwargs where
  temperature : Option Rat
  max_tokens : Option (Option Nat)
  timeout : Option Rat
  max_retries : Option Nat
  system_prompt : Option (Option String)
deriving DecidableEq, Repr

/-- UniAI.switch_provider from src/uniai/client.py: build a fresh config
reusing the previous provider settings for absent kwargs, lower and store
the new provider name, construct the new provider (a resolution failure
raises at that point, after the name was stored but before memory is
touched), and clear memory only when keep_history is false. -/
def switch_provider (reg : Registry) (st : UniAIState)
    (provider api_key : String) (model base_url : Option String)
    (keep_history : Bool) (kw : SwitchKwargs) :
    UniAIState × Option UniAIError :=
  let cfg : ProviderConfig :=
    { api_key := api_key, model := model.getD "", base_url := base_url,
      timeout := kw.timeout.getD st.config.timeout,
      max_retries := kw.max_retries.getD st.config.max_retries,
      temperature := kw.temperature.getD st.config.temperature,
      max_tokens := kw.max_tokens.getD st.config.max_tokens,
      system_prompt := kw.system_prompt.getD st.memory.system_prompt }
  let name := pyLower provider
  match create_provider reg name with
  | .error e => ({ st with provider_name := name }, some e)
  | .ok cls =>
      ({ provider_name := name, provider_class := cls,
         config := providerEffectiveConfig cls cfg,
         memory := if keep_history then st.memory else st.memory.clear },
        none)

/-- UniAI.get_history from src/uniai/client.py: the stored messages as
role and content dictionaries. -/
def get_history (st : UniAIState) : List WireMessage :=
  st.memory.messages.map Message.to_dict

/-- UniAI.clear_history from src/uniai/client.py. -/
def clear_history (st : UniAIState) : UniAIState :=
  { st with memory := st.memory.clear }

end UniAI

/-- One append operation on a Memory, through any of the three public
add methods. -/
inductive AddOp where
  | user (content : String)
  | assistant (content : String)
  | system (content : String)
deriving DecidableEq, Repr

/-- The Message each append operation creates. -/
def AddOp.message : AddOp → Message
  | .user c => { role := .user, content := c }
  | .assistant c => { role := .assistant, content := c }
  | .system c => { role := .system, content := c }

/-- Apply one append operation to a Memory. -/
def Memory.applyAdd (m : Memory) : AddOp → Memory
  | .user c => m.add_user_message c
  | .assistant c => m.add_assistant_message c
  | .system c => m.add_system_message c

/-- Apply a sequence of append operations to a Memory, left to right. -/
def Memory.applyAdds (m : Memory) (ops : List AddOp) : Memory :=
  ops.foldl Memory.applyAdd m

/-- The last k elements of a list (all of it when it is shorter than k). -/
def lastK (k : Nat) (l : List Message) : List Message :=
  l.drop (l.length - k)

/-- A concrete effective config, as produced for the OpenAI provider by a
facade constructed with provider openai, api key k and all defaults. -/
def sampleConfig : EffectiveConfig :=
  { api_key := "k", model := "", base_url := some OpenAIConfig_default_base_url,
    timeout := 60, max_retries := 3, temperature := 1, max_tokens := none,
    system_prompt := none }

/-- A concrete facade state with unbounded empty memory and no system
prompt. -/
def sampleState : UniAIState :=
  { provider_name := "openai", provider_class := .openai,
    config := sampleConfig,
    memory := { messages := [], max_messages := none, system_prompt := none } }

/-- A concrete facade state whose provider config system prompt and memory
system prompt agree, as construction establishes. -/
def sampleStatePrompted : UniAIState :=
  { provider_name := "openai", provider_class := .openai,
    config := { sampleConfig with system_prompt := some "be brief" },
    memory := { messages := [{ role := .user, content := "q" }],
                max_messages := none, system_prompt := some "be brief" } }

end UniaiModel




namespace UniaiModel

theorem lastK_length_le (k : Nat) (l : List Message) :
    (lastK k l).length ≤ k := by
  simp only [lastK, List.length_drop]
  omega

theorem lastK_append_absorb (k : Nat) (L rest : List Message) :
    lastK k (lastK k L ++ rest) = lastK k (L ++ rest) := by
  unfold lastK
  rcases Nat.le_total k L.length with h | h
  · have hj : L.length - k ≤ L.length := Nat.sub_le _ _
    rw [List.length_append, List.length_drop, List.length_append]
    have h1 : L.length - (L.length - k) = k := Nat.sub_sub_self h
    rw [h1]
    have h2 : L.length + rest.length - k = (L.length - k) + rest.length := by
      omega
    rw [h2, ← List.drop_drop, List.drop_append_of_le_length hj]
    congr 1
    omega
  · have h0 : L.length - k = 0 := Nat.sub_eq_zero_of_le h
    rw [h0, List.drop_zero]

theorem Memory.add_message_some (k : Nat) (s : Option String)
    (l : List Message) (x : Message) :
    Memory.add_message ⟨l, some k, s⟩ x = ⟨lastK k (l ++ [x]), some k, s⟩ := by
  simp only [Memory.add_message, Memory.enforce_limit, lastK]
  split
  · rfl
  · next h =>
      have h0 : l.length + 1 - k = 0 := by
        simp only [List.length_append, List.length_singleton] at h
        omega
      simp [h0]

theorem Memory.applyAdd_some (k : Nat) (s : Option String)
    (l : List Message) (op : AddOp) :
    Memory.applyAdd ⟨l, some k, s⟩ op
      = ⟨lastK k (l ++ [op.message]), some k, s⟩ := by
  cases op <;>
    simp [Memory.applyAdd, Memory.add_user_message,
      Memory.add_assistant_message, Memory.add_system_message,
      AddOp.message, Memory.add_message_some]

theorem Memory.applyAdds_some (k : Nat) (s : Option String) :
    ∀ (ops : List AddOp) (l : List Message), l.length ≤ k →
      Memory.applyAdds ⟨l, some k, s⟩ ops
        = ⟨lastK k (l ++ ops.map AddOp.message), some k, s⟩
  | [], l, h => by
      simp [Memory.applyAdds, lastK, Nat.sub_eq_zero_of_le h]
  | op :: ops, l, h => by
      have step : Memory.applyAdds ⟨l, some k, s⟩ (op :: ops)
          = Memory.applyAdds (Memory.applyAdd ⟨l, some k, s⟩ op) ops := rfl
      rw [step, Memory.applyAdd_some,
        Memory.applyAdds_some k s ops _ (lastK_length_le _ _),
        lastK_append_absorb]
      congr 1
      simp

/-- C2: for every Memory bounded at K and every sequence of N > K appends
through the public add methods, the stored sequence afterwards has length
exactly K and consists of exactly the last K appended messages in their
original order. -/
theorem memory_fifo_bound (k : Nat) (s : Option String) (ops : List AddOp)
    (h : k < ops.length) :
    (Memory.applyAdds ⟨[], some k, s⟩ ops).messages.length = k
    ∧ (Memory.applyAdds ⟨[], some k, s⟩ ops).messages
        = (ops.map AddOp.message).drop (ops.length - k) := by
  rw [Memory.applyAdds_some k s ops [] (by simp)]
  refine ⟨?_, ?_⟩
  · simp only [lastK, List.nil_append, List.length_drop, List.length_map]
    omega
  · simp [lastK]

/-- Witness for memory_fifo_bound: two appends into a bound of one retain
exactly the second message. -/
theorem memory_fifo_bound_witness :
    (Memory.applyAdds ⟨[], some 1, none⟩
        [AddOp.user "a", AddOp.user "b"]).messages
      = [{ role := Role.user, content := "b" }] := by
  have h := memory_fifo_bound 1 none [AddOp.user "a", AddOp.user "b"]
    (by decide)
  rw [h.2]
  rfl

end UniaiModel

namespace UniaiModel

/-- C10: an empty-string system directive is treated as absent, exactly
like None: Memory.get_context returns only the stored messages with no
synthetic system entry, and the shared wire preparation emits no
system-role entry; only a non-empty directive is prepended. -/
theorem empty_system_prompt_treated_absent (msgs : List Message)
    (bound : Option Nat) (s : String) :
    (Memory.mk msgs bound (some "")).get_context = msgs
    ∧ prepare_messages (some "") msgs = msgs.map Message.to_dict
    ∧ (Memory.mk msgs bound none).get_context = msgs
    ∧ prepare_messages none msgs = msgs.map Message.to_dict
    ∧ (s.isEmpty = false →
        (Memory.mk msgs bound (some s)).get_context
          = { role := Role.system, content := s } :: msgs) := by
  refine ⟨?_, ?_, ?_, ?_, ?_⟩
  · simp [Memory.get_context, optStrTruthy, String.isEmpty_iff]
  · simp [prepare_messages, optStrTruthy, String.isEmpty_iff]
  · simp [Memory.get_context, optStrTruthy]
  · simp [prepare_messages, optStrTruthy]
  · intro h
    simp [Memory.get_context, optStrTruthy, h]

/-- Witness for empty_system_prompt_treated_absent at a concrete memory. -/
theorem empty_system_prompt_treated_absent_witness :
    (Memory.mk [{ role := Role.user, content := "q" }] none (some "")).get_context
      = [{ role := Role.user, content := "q" }]
    ∧ (Memory.mk [] none (some "hi")).get_context
      = [{ role := Role.system, content := "hi" }] :=
  ⟨(empty_system_prompt_treated_absent
      [{ role := Role.user, content := "q" }] none "hi").1,
    (empty_system_prompt_treated_absent [] none "hi").2.2.2.2 (by decide)⟩

/-- C6: every transport-layer failure crossing the adapter boundary through
the _handle_error mapping of the OpenAI, DeepSeek or Gemini adapter is one
of AuthenticationError, RateLimitError or APIError, never a vendor-native
type; a vendor authentication failure maps to AuthenticationError with
status code 401. -/
theorem adapter_errors_classified :
    (∀ e, (openaiHandleError e).isClassifiedAPIFailure = true)
    ∧ (∀ e, (deepseekHandleError e).isClassifiedAPIFailure = true)
    ∧ (∀ b e, (geminiHandleError b e).isClassifiedAPIFailure = true)
    ∧ openaiHandleError OpenAIVendorError.authenticationFailure
        = UniAIError.authenticationError
            "Invalid API key or unauthorized access" (some 401)
    ∧ deepseekHandleError OpenAIVendorError.authenticationFailure
        = UniAIError.authenticationError
            "Invalid API key or unauthorized access" (some 401)
    ∧ ∀ d, geminiHandleError true (GeminiVendorError.unauthenticated d)
        = UniAIError.authenticationError
            "Invalid Gemini API key or unauthorized access" (some 401) := by
  refine ⟨?_, ?_, ?_, rfl, rfl, fun d => rfl⟩
  · intro e
    cases e <;> rfl
  · intro e
    cases e <;> rfl
  · intro b e
    cases b <;> cases e <;> rfl

/-- C3: evaluation at the failing input.  A ProviderConfig whose model is
the literal empty string keeps the empty model in the OpenAI provider
effective config instead of falling back to the vendor default gpt-4o-mini
(the conversion in OpenAIProvider applies the fallback only to base_url),
while the DeepSeek conversion does fall back for both fields; caller
supplied non-empty values are kept by both.  The first conjunct exhibits
the state reached by constructing the facade with provider openai and no
model. -/
theorem openai_empty_model_kept_not_defaulted :
    ((UniAI.init builtinRegistry "openai" "k" none none none 1 none none
        60 3).map fun st => st.config.model) = Except.ok ""
    ∧ (providerEffectiveConfig .openai
        { api_key := "k", model := "", base_url := none, timeout := 60,
          max_retries := 3, temperature := 1, max_tokens := none,
          system_prompt := none }).model = ""
    ∧ ("" : String) ≠ OpenAIConfig_default_model
    ∧ (providerEffectiveConfig .openai
        { api_key := "k", model := "", base_url := none, timeout := 60,
          max_retries := 3, temperature := 1, max_tokens := none,
          system_prompt := none }).base_url
        = some OpenAIConfig_default_base_url
    ∧ (providerEffectiveConfig .deepseek
        { api_key := "k", model := "", base_url := none, timeout := 60,
          max_retries := 3, temperature := 1, max_tokens := none,
          system_prompt := none }).model = DeepSeekConfig_default_model
    ∧ (providerEffectiveConfig .deepseek
        { api_key := "k", model := "", base_url := none, timeout := 60,
          max_retries := 3, temperature := 1, max_tokens := none,
          system_prompt := none }).base_url
        = some DeepSeekConfig_default_base_url
    ∧ (providerEffectiveConfig .openai
        { api_key := "k", model := "m", base_url := some "u", timeout := 60,
          max_retries := 3, temperature := 1, max_tokens := none,
          system_prompt := none }).model = "m"
    ∧ (providerEffectiveConfig .openai
        { api_key := "k", model := "m", base_url := some "u", timeout := 60,
          max_retries := 3, temperature := 1, max_tokens := none,
          system_prompt := none }).base_url = some "u"
    ∧ (providerEffectiveConfig .deepseek
        { api_key := "k", model := "m", base_url := some "u", timeout := 60,
          max_retries := 3, temperature := 1, max_tokens := none,
          system_prompt := none }).model = "m" := by
  exact ⟨rfl, rfl, by decide, rfl, rfl, rfl, rfl, rfl, rfl⟩

end UniaiModel

namespace UniaiModel

/-- C4 counterexample: an OpenAI-style streaming call whose vendor stream
ends by exhaustion with no finish signal produces no final chunk at all —
one content delta with no finish reason yields exactly one non-final chunk,
so the produced sequence does not contain exactly one chunk with
is_final true. -/
theorem openai_stream_exhaustion_no_final_chunk :
    openaiStreamChunks [contentEvent "hello"]
      = [{ content := "hello", finish_reason := none, is_final := false }]
    ∧ ¬((openaiStreamChunks [contentEvent "hello"]).countP
          (fun c => c.is_final) = 1) :=
  ⟨rfl, by decide⟩

/-- C4 (amended): the Gemini adapter always yields exactly one final chunk
and it is the last one, synthesized with empty content; the OpenAI-style
adapters yield exactly one final last chunk when the vendor stream ends
with an explicit finish-reason delta — in particular 3 content deltas
followed by a finish signal yield exactly 4 chunks, 3 non-final then 1
final with empty content — but yield no final chunk when the vendor stream
ends by exhaustion with no finish signal. -/
theorem stream_single_final_chunk :
    (∀ texts : List String,
        (geminiStreamChunks texts).countP (fun c => c.is_final) = 1
        ∧ (geminiStreamChunks texts).getLast?
            = some { content := "", finish_reason := some "stop",
                     is_final := true })
    ∧ (∀ c1 c2 c3 r : String, c1.isEmpty = false → c2.isEmpty = false →
        c3.isEmpty = false → r.isEmpty = false →
        openaiStreamChunks
            [contentEvent c1, contentEvent c2, contentEvent c3,
              finishEvent r]
          = [{ content := c1, finish_reason := none, is_final := false },
             { content := c2, finish_reason := none, is_final := false },
             { content := c3, finish_reason := none, is_final := false },
             { content := "", finish_reason := some r, is_final := true }])
    ∧ (∀ texts : List String,
        (openaiStreamChunks (texts.map contentEvent)).countP
          (fun c => c.is_final) = 0) := by
  refine ⟨?_, ?_, ?_⟩
  · intro texts
    have hz : (texts.flatMap fun t =>
        if t.isEmpty then ([] : List StreamChunk)
        else [{ content := t, finish_reason := none,
                is_final := false }]).countP (fun c => c.is_final) = 0 := by
      rw [List.countP_eq_zero]
      intro c hc
      rw [List.mem_flatMap] at hc
      obtain ⟨t, _, hct⟩ := hc
      by_cases he : t.isEmpty
      · simp [he] at hct
      · simp [he] at hct
        subst hct
        simp
    constructor
    · simp only [geminiStreamChunks, List.countP_append, hz]
      rfl
    · simp only [geminiStreamChunks]
      exact List.getLast?_concat _
  · intro c1 c2 c3 r h1 h2 h3 h4
    simp [openaiStreamChunks, openaiYieldForEvent, contentEvent,
      finishEvent, optStrTruthy, h1, h2, h3, h4]
  · intro texts
    rw [List.countP_eq_zero]
    intro c hc
    simp only [openaiStreamChunks, List.mem_flatMap] at hc
    obtain ⟨ev, hev, hc2⟩ := hc
    rw [List.mem_map] at hev
    obtain ⟨t, _, het⟩ := hev
    subst het
    simp only [openaiYieldForEvent, contentEvent, optStrTruthy] at hc2
    by_cases he : t.isEmpty
    · simp [he] at hc2
    · simp [he] at hc2
      subst hc2
      simp

/-- Witness for stream_single_final_chunk at concrete deltas. -/
theorem stream_single_final_chunk_witness :
    openaiStreamChunks
        [contentEvent "a", contentEvent "b", contentEvent "c",
          finishEvent "stop"]
      = [{ content := "a", finish_reason := none, is_final := false },
         { content := "b", finish_reason := none, is_final := false },
         { content := "c", finish_reason := none, is_final := false },
         { content := "", finish_reason := some "stop", is_final := true }] :=
  stream_single_final_chunk.2.1 "a" "b" "c" "stop" rfl rfl rfl rfl

end UniaiModel

namespace UniaiModel

theorem Memory.add_message_unbounded (m : Memory) (h : m.max_messages = none)
    (x : Message) :
    m.add_message x = { m with messages := m.messages ++ [x] } := by
  simp [Memory.add_message, Memory.enforce_limit, h]

theorem Memory.add_message_getLast (m : Memory) (x : Message)
    (h : m.max_messages ≠ some 0) :
    (m.add_message x).messages.getLast? = some x
    ∧ x ∈ (m.add_message x).messages := by
  cases hm : m.max_messages with
  | none =>
      rw [Memory.add_message_unbounded m hm x]
      simp
  | some k =>
      have hk : 1 ≤ k := by
        rcases Nat.eq_zero_or_pos k with rfl | hp
        · exact absurd hm h
        · exact hp
      simp only [Memory.add_message, Memory.enforce_limit, hm]
      split
      · next hgt =>
          have hle : (m.messages ++ [x]).length - k ≤ m.messages.length := by
            simp only [List.length_append, List.length_singleton]
            omega
          rw [List.drop_append_of_le_length hle]
          simp
      · simp

end UniaiModel

namespace UniaiModel

/-- C5: for every facade stream call on an unbounded memory, a normally
completing provider stream records exactly one assistant message — the
concatenation of all non-empty chunk contents in order — appended right
after the user message, while a provider failure mid-stream records no
assistant message at all: memory keeps only the user message and the error
propagates. -/
theorem stream_memory_recording (st : UniAIState) (message : String)
    (h : st.memory.max_messages = none) :
    (∀ chunks : List StreamChunk,
        (UniAI.stream st message (.completed chunks)).1.memory.messages
          = st.memory.messages
            ++ [{ role := Role.user, content := message },
                { role := Role.assistant,
                  content := String.join (UniAI.streamedContents chunks) }]
        ∧ (UniAI.stream st message (.completed chunks)).2.2 = none)
    ∧ (∀ (delivered : List StreamChunk) (e : UniAIError),
        (UniAI.stream st message (.failed delivered e)).1.memory.messages
          = st.memory.messages
            ++ [{ role := Role.user, content := message }]
        ∧ (UniAI.stream st message (.failed delivered e)).2.2 = some e) := by
  have h1 : st.memory.add_user_message message
      = { st.memory with messages := st.memory.messages
            ++ [{ role := Role.user, content := message }] } :=
    Memory.add_message_unbounded st.memory h _
  refine ⟨fun chunks => ⟨?_, rfl⟩, fun delivered e => ⟨?_, rfl⟩⟩
  · show ((st.memory.add_user_message message).add_assistant_message
        (String.join (UniAI.streamedContents chunks))).messages = _
    simp only [Memory.add_user_message, Memory.add_assistant_message]
    rw [Memory.add_message_unbounded st.memory h]
    rw [Memory.add_message_unbounded _ (by exact h) _]
    simp
  · show (st.memory.add_user_message message).messages = _
    rw [h1]

/-- Witness for stream_memory_recording on a concrete state and stream. -/
theorem stream_memory_recording_witness :
    (UniAI.stream sampleState "hi"
        (.completed
          [{ content := "a", finish_reason := none, is_final := false },
           { content := "", finish_reason := some "stop",
             is_final := true }])).1.memory.messages
      = [{ role := Role.user, content := "hi" },
         { role := Role.assistant, content := "a" }] := by
  have h := (stream_memory_recording sampleState "hi" rfl).1
    [{ content := "a", finish_reason := none, is_final := false },
     { content := "", finish_reason := some "stop", is_final := true }]
  rw [h.1]
  rfl

/-- C9 counterexample: for a facade constructed with max_history 0 — a
bounded Memory the constructor accepts — a chat call whose provider raises
leaves the user message not recorded in Memory at all: the append is
immediately evicted by the bound, so the claim that the user message
remains recorded fails on this reachable state. -/
theorem chat_error_user_message_evicted :
    ((UniAI.init builtinRegistry "openai" "k" none none none 1 none (some 0)
        60 3).map fun st =>
      (UniAI.chat st "hi"
          (.raise (.apiError "boom" none))).1.memory.messages)
      = Except.ok []
    ∧ ((UniAI.init builtinRegistry "openai" "k" none none none 1 none
        (some 0) 60 3).map fun st =>
      decide (({ role := Role.user, content := "hi" } : Message)
          ∈ (UniAI.chat st "hi"
              (.raise (.apiError "boom" none))).1.memory.messages))
      = Except.ok false :=
  ⟨rfl, rfl⟩

/-- C9 (amended): for every facade chat call whose provider raises, with
the memory bound absent or nonzero, the user message appended at the start
of the call remains recorded in Memory as its last message (no rollback),
no assistant message is appended — memory ends exactly as the user-message
append left it — and the error propagates unchanged; with bound zero the
appended user message is immediately evicted by the normal FIFO
enforcement. -/
theorem chat_error_keeps_user_message (st : UniAIState) (message : String)
    (e : UniAIError) (h : st.memory.max_messages ≠ some 0) :
    (UniAI.chat st message (.raise e)).1.memory
        = st.memory.add_user_message message
    ∧ { role := Role.user, content := message }
        ∈ (UniAI.chat st message (.raise e)).1.memory.messages
    ∧ (UniAI.chat st message (.raise e)).1.memory.messages.getLast?
        = some { role := Role.user, content := message }
    ∧ (UniAI.chat st message (.raise e)).2 = Except.error e := by
  have hl := Memory.add_message_getLast st.memory
    { role := Role.user, content := message } h
  exact ⟨rfl, hl.2, hl.1, rfl⟩

/-- Witness for chat_error_keeps_user_message on a concrete state. -/
theorem chat_error_keeps_user_message_witness :
    ({ role := Role.user, content := "hi" } : Message)
      ∈ (UniAI.chat sampleState "hi"
          (.raise (.apiError "boom" none))).1.memory.messages :=
  (chat_error_keeps_user_message sampleState "hi" (.apiError "boom" none)
    (by decide)).2.1

end UniaiModel

namespace UniaiModel

/-- C8: switch_provider with keep_history true leaves memory — hence the
history view — exactly as before the switch; with keep_history false and a
successful switch, history is empty immediately afterwards while the memory
bound and system prompt survive; memory is the only facade state besides
the provider reference, its config and the provider name, so nothing else
changes. -/
theorem switch_provider_history (reg : Registry) (st : UniAIState)
    (provider api_key : String) (model base_url : Option String)
    (kw : UniAI.SwitchKwargs) :
    ((UniAI.switch_provider reg st provider api_key model base_url true
        kw).1.memory = st.memory
      ∧ UniAI.get_history (UniAI.switch_provider reg st provider api_key
          model base_url true kw).1 = UniAI.get_history st)
    ∧ ((UniAI.switch_provider reg st provider api_key model base_url false
          kw).2 = none →
        (UniAI.switch_provider reg st provider api_key model base_url false
            kw).1.memory.messages = []
        ∧ UniAI.get_history (UniAI.switch_provider reg st provider api_key
            model base_url false kw).1 = []
        ∧ (UniAI.switch_provider reg st provider api_key model base_url
            false kw).1.memory.system_prompt
            = st.memory.system_prompt
        ∧ (UniAI.switch_provider reg st provider api_key model base_url
            false kw).1.memory.max_messages
            = st.memory.max_messages) := by
  constructor
  · unfold UniAI.switch_provider
    cases hcp : UniAI.create_provider reg (pyLower provider) with
    | error e => simp [hcp, UniAI.get_history]
    | ok cls => simp [hcp, UniAI.get_history]
  · intro hok
    unfold UniAI.switch_provider at hok ⊢
    cases hcp : UniAI.create_provider reg (pyLower provider) with
    | error e => simp [hcp] at hok
    | ok cls => simp [hcp, UniAI.get_history, Memory.clear]

/-- Witness for switch_provider_history: a successful keep_history false
switch to deepseek empties the history of a concrete populated state. -/
theorem switch_provider_history_witness :
    UniAI.get_history
      (UniAI.switch_provider builtinRegistry sampleStatePrompted "deepseek"
        "k2" none none false
        { temperature := none, max_tokens := none, timeout := none,
          max_retries := none, system_prompt := none }).1
      = [] :=
  ((switch_provider_history builtinRegistry sampleStatePrompted "deepseek"
      "k2" none none
      { temperature := none, max_tokens := none, timeout := none,
        max_retries := none, system_prompt := none }).2 rfl).2.1

end UniaiModel

namespace UniaiModel

theorem charToLower_idem (c : Char) : c.toLower.toLower = c.toLower := by
  have key : ∀ d : Char, (¬(d.toNat ≥ 65 ∧ d.toNat ≤ 90)) → d.toLower = d := by
    intro d hd
    unfold Char.toLower
    exact if_neg hd
  by_cases h : c.toNat ≥ 65 ∧ c.toNat ≤ 90
  · have h1 : c.toLower = Char.ofNat (c.toNat + 32) := by
      unfold Char.toLower
      exact if_pos h
    have ht : (Char.ofNat (c.toNat + 32)).toNat = c.toNat + 32 := by
      have hv : Nat.isValidChar (c.toNat + 32) := Or.inl (by omega)
      rw [Char.ofNat, dif_pos hv]
      simp [Char.ofNatAux, Char.toNat, UInt32.toNat, BitVec.toNat_ofNatLt]
    rw [h1]
    apply key
    rw [ht]
    omega
  · rw [key c h, key c h]

theorem pyLower_idem (s : String) : pyLower (pyLower s) = pyLower s := by
  show (⟨(s.data.map Char.toLower).map Char.toLower⟩ : String)
      = ⟨s.data.map Char.toLower⟩
  rw [List.map_map]
  simp [Function.comp_def, charToLower_idem]

theorem registryGet_overwrite (reg : Registry) (key : String)
    (cls : ProviderClass) (h : reg.any (fun p => p.1 == key) = true) :
    ((reg.map fun p => if p.1 == key then (p.1, cls) else p).find?
        (fun p => p.1 == key)).map (·.2) = some cls := by
  induction reg with
  | nil => simp at h
  | cons p reg ih =>
      rw [List.any_cons] at h
      simp only [List.map_cons]
      by_cases hp : (p.1 == key) = true
      · rw [if_pos hp, List.find?_cons_of_pos _ (by exact hp)]
        rfl
      · have hp2 : (p.1 == key) = false := by
          cases hpt : (p.1 == key)
          · rfl
          · exact absurd hpt hp
        rw [if_neg hp, List.find?_cons_of_neg _ (by exact hp)]
        apply ih
        rw [hp2] at h
        simpa using h

theorem find_append_fresh (reg : Registry) (key : String)
    (cls : ProviderClass) (h : reg.any (fun p => p.1 == key) = false) :
    (reg ++ [(key, cls)]).find? (fun p => p.1 == key) = some (key, cls) := by
  induction reg with
  | nil => simp
  | cons p reg ih =>
      rw [List.any_cons, Bool.or_eq_false_iff] at h
      rw [List.cons_append, List.find?_cons_of_neg _ (by simp [h.1])]
      exact ih h.2

theorem registryGet_register (reg : Registry) (name : String)
    (cls : ProviderClass) :
    registryGet (register_provider reg name cls) (pyLower name)
      = some cls := by
  unfold register_provider registryGet
  split
  · next h => exact registryGet_overwrite reg (pyLower name) cls h
  · next h =>
      have h2 : reg.any (fun p => p.1 == pyLower name) = false := by
        cases hh : reg.any (fun p => p.1 == pyLower name)
        · rfl
        · exact absurd hh h
      rw [find_append_fresh reg (pyLower name) cls h2]
      rfl

/-- C7: looking up a provider name absent from the registry — compared
case-insensitively — fails, and at the facade boundary (construction or
switch) this surfaces as a ConfigurationError whose message names the
attempted provider name and lists the known provider names; lookup of any
registered name succeeds regardless of the case of the queried name, both
for the built-in entries and for any name added through
register_provider. -/
theorem provider_registry_lookup :
    (∀ name : String, pyLower name ≠ "openai" → pyLower name ≠ "deepseek" →
      get_provider builtinRegistry name
        = Except.error
            ("Unknown provider: " ++ name ++ ". Available: openai, deepseek")
      ∧ UniAI.create_provider builtinRegistry name
        = Except.error (.configurationError
            ("Unknown provider: " ++ name ++ ". Available: openai, deepseek"))
      ∧ (∀ api_key sys temp maxtok maxhist tmo mr,
          UniAI.init builtinRegistry name api_key none none sys temp maxtok
              maxhist tmo mr
            = Except.error (.configurationError
                ("Unknown provider: " ++ pyLower name
                  ++ ". Available: openai, deepseek")))
      ∧ (∀ (st : UniAIState) api_key keep kw,
          (UniAI.switch_provider builtinRegistry st name api_key none none
              keep kw).2
            = some (.configurationError
                ("Unknown provider: " ++ pyLower name
                  ++ ". Available: openai, deepseek"))))
    ∧ (∀ s : String, pyLower s = "openai" →
        get_provider builtinRegistry s = Except.ok ProviderClass.openai)
    ∧ (∀ s : String, pyLower s = "deepseek" →
        get_provider builtinRegistry s = Except.ok ProviderClass.deepseek)
    ∧ (∀ (reg : Registry) (name query : String) (cls : ProviderClass),
        pyLower query = pyLower name →
        get_provider (register_provider reg name cls) query
          = Except.ok cls) := by
  have core : ∀ name : String, pyLower name ≠ "openai" →
      pyLower name ≠ "deepseek" →
      get_provider builtinRegistry name
        = Except.error
            ("Unknown provider: " ++ name
              ++ ". Available: openai, deepseek") := by
    intro name h1 h2
    have e1 : (("openai" : String) == pyLower name) = false := by
      rw [beq_eq_false_iff_ne]
      exact fun hh => h1 hh.symm
    have e2 : (("deepseek" : String) == pyLower name) = false := by
      rw [beq_eq_false_iff_ne]
      exact fun hh => h2 hh.symm
    unfold get_provider registryGet builtinRegistry
    rw [List.find?_cons_of_neg _ (by simp [e1]),
      List.find?_cons_of_neg _ (by simp [e2]), List.find?_nil]
    show Except.error ("Unknown provider: " ++ name ++ ". Available: "
        ++ String.intercalate ", " ["openai", "deepseek"]) = _
    rw [String.append_assoc]
    rfl
  refine ⟨?_, ?_, ?_, ?_⟩
  · intro name h1 h2
    have hc : UniAI.create_provider builtinRegistry name
        = Except.error (.configurationError
            ("Unknown provider: " ++ name
              ++ ". Available: openai, deepseek")) := by
      unfold UniAI.create_provider
      rw [core name h1 h2]
    have h1l : pyLower (pyLower name) ≠ "openai" := by
      rw [pyLower_idem]
      exact h1
    have h2l : pyLower (pyLower name) ≠ "deepseek" := by
      rw [pyLower_idem]
      exact h2
    have hcl : UniAI.create_provider builtinRegistry (pyLower name)
        = Except.error (.configurationError
            ("Unknown provider: " ++ pyLower name
              ++ ". Available: openai, deepseek")) := by
      unfold UniAI.create_provider
      rw [core (pyLower name) h1l h2l]
    refine ⟨core name h1 h2, hc, ?_, ?_⟩
    · intro api_key sys temp maxtok maxhist tmo mr
      simp only [UniAI.init, hcl]
    · intro st api_key keep kw
      simp only [UniAI.switch_provider, hcl]
  · intro s hq
    unfold get_provider registryGet builtinRegistry
    rw [hq]
    rfl
  · intro s hq
    unfold get_provider registryGet builtinRegistry
    rw [hq]
    rfl
  · intro reg name query cls hq
    unfold get_provider
    rw [hq, registryGet_register]

/-- Witness for provider_registry_lookup: the unknown name anthropic fails
with the expected ConfigurationError, and mixed-case lookups of the
registered names succeed. -/
theorem provider_registry_lookup_witness :
    UniAI.create_provider builtinRegistry "anthropic"
      = Except.error (.configurationError
          "Unknown provider: anthropic. Available: openai, deepseek")
    ∧ get_provider builtinRegistry "OpenAI" = Except.ok ProviderClass.openai
    ∧ get_provider builtinRegistry "DeepSeek"
        = Except.ok ProviderClass.deepseek
    ∧ get_provider
        (register_provider builtinRegistry "Claude" (.custom 7)) "CLAUDE"
        = Except.ok (ProviderClass.custom 7) := by
  refine ⟨?_, ?_, ?_, ?_⟩
  · have h := (provider_registry_lookup.1 "anthropic" (by decide)
      (by decide)).2.1
    rw [h]
    rfl
  · exact provider_registry_lookup.2.1 "OpenAI" rfl
  · exact provider_registry_lookup.2.2.1 "DeepSeek" rfl
  · exact provider_registry_lookup.2.2.2 builtinRegistry "Claude" "CLAUDE"
      (.custom 7) rfl

end UniaiModel

namespace UniaiModel

theorem Memory.add_message_system_prompt (m : Memory) (x : Message) :
    (m.add_message x).system_prompt = m.system_prompt := by
  unfold Memory.add_message Memory.enforce_limit
  cases hm : m.max_messages
  · rfl
  · simp only []
    split
    · rfl
    · rfl

theorem providerEffectiveConfig_system_prompt (cls : ProviderClass)
    (c : ProviderConfig) :
    (providerEffectiveConfig cls c).system_prompt = c.system_prompt := by
  cases cls <;> rfl

/-- C1 counterexample: the wire sequence and Memory.context can diverge on
a reachable facade state.  Construct the facade with system prompt a, then
switch provider passing a system_prompt override b: the override updates
the provider config but not the Memory, so the next chat call delivers b as
the system entry on the wire while Memory.context still carries a. -/
theorem chat_wire_context_divergence :
    ((UniAI.init builtinRegistry "openai" "k" none none (some "a") 1 none
        none 60 3).map fun st0 =>
      UniAI.chatWire
        (UniAI.switch_provider builtinRegistry st0 "deepseek" "k2" none none
            true
            { temperature := none, max_tokens := none, timeout := none,
              max_retries := none, system_prompt := some (some "b") }).1
        "hi")
      = Except.ok [{ role := "system", content := "b" },
                   { role := "user", content := "hi" }]
    ∧ ((UniAI.init builtinRegistry "openai" "k" none none (some "a") 1 none
        none 60 3).map fun st0 =>
      ((((UniAI.switch_provider builtinRegistry st0 "deepseek" "k2" none
            none true
            { temperature := none, max_tokens := none, timeout := none,
              max_retries := none,
              system_prompt := some (some "b") }).1.memory.add_user_message
          "hi").get_context).map Message.to_dict))
      = Except.ok [{ role := "system", content := "a" },
                   { role := "user", content := "hi" }]
    ∧ ((UniAI.init builtinRegistry "openai" "k" none none (some "a") 1 none
        none 60 3).map fun st0 =>
      decide (UniAI.chatWire
          (UniAI.switch_provider builtinRegistry st0 "deepseek" "k2" none
              none true
              { temperature := none, max_tokens := none, timeout := none,
                max_retries := none,
                system_prompt := some (some "b") }).1
          "hi"
        = ((((UniAI.switch_provider builtinRegistry st0 "deepseek" "k2" none
              none true
              { temperature := none, max_tokens := none, timeout := none,
                max_retries := none,
                system_prompt := some (some "b") }).1.memory.add_user_message
            "hi").get_context).map Message.to_dict)))
      = Except.ok false :=
  ⟨rfl, rfl, rfl⟩

/-- C1 (amended): whenever the active provider config system prompt equals
the Memory system prompt — which construction establishes and which
switch_provider preserves unless a system_prompt override is passed — the
role and content sequence delivered to the vendor wire by a facade chat or
stream call equals Memory.get_context converted to role and content pairs:
the directive (if truthy) first as one system entry, then every stored
message in original order. -/
theorem chat_wire_matches_context :
    (∀ (st : UniAIState) (message : String),
      st.config.system_prompt = st.memory.system_prompt →
      UniAI.chatWire st message
        = ((st.memory.add_user_message message).get_context).map
            Message.to_dict)
    ∧ (∀ provider api_key model base_url sys temp maxtok maxhist tmo mr st,
        UniAI.init builtinRegistry provider api_key model base_url sys temp
            maxtok maxhist tmo mr = Except.ok st →
        st.config.system_prompt = st.memory.system_prompt)
    ∧ (∀ (st : UniAIState) provider api_key model base_url keep
          (kw : UniAI.SwitchKwargs),
        kw.system_prompt = none →
        (UniAI.switch_provider builtinRegistry st provider api_key model
            base_url keep kw).2 = none →
        (UniAI.switch_provider builtinRegistry st provider api_key model
            base_url keep kw).1.config.system_prompt
          = (UniAI.switch_provider builtinRegistry st provider api_key model
              base_url keep kw).1.memory.system_prompt) := by
  refine ⟨?_, ?_, ?_⟩
  · intro st message h
    have hsp : (st.memory.add_user_message message).system_prompt
        = st.memory.system_prompt :=
      Memory.add_message_system_prompt st.memory _
    show prepare_messages st.config.system_prompt
        (st.memory.add_user_message message).messages = _
    unfold prepare_messages Memory.get_context
    rw [hsp, h]
    cases hst : st.memory.system_prompt with
    | none => simp [optStrTruthy]
    | some s =>
        by_cases he : s.isEmpty
        · simp [optStrTruthy, he]
        · simp [optStrTruthy, he, Message.to_dict, Role.value]
  · intro provider api_key model base_url sys temp maxtok maxhist tmo mr st
      hok
    cases hcp : UniAI.create_provider builtinRegistry (pyLower provider) with
    | error e =>
        simp only [UniAI.init, hcp] at hok
        exact Except.noConfusion hok
    | ok cls =>
        simp only [UniAI.init, hcp, Except.ok.injEq] at hok
        subst hok
        simp [providerEffectiveConfig_system_prompt]
  · intro st provider api_key model base_url keep kw hkw hok
    cases hcp : UniAI.create_provider builtinRegistry (pyLower provider) with
    | error e =>
        simp only [UniAI.switch_provider, hcp] at hok
        exact Option.noConfusion hok
    | ok cls =>
        simp only [UniAI.switch_provider, hcp]
        rw [providerEffectiveConfig_system_prompt]
        simp only [hkw, Option.getD_none]
        cases keep
        · simp [Memory.clear]
        · simp

/-- Witness for chat_wire_matches_context on a concrete state whose two
system prompts agree. -/
theorem chat_wire_matches_context_witness :
    UniAI.chatWire sampleStatePrompted "hi"
      = (((sampleStatePrompted.memory.add_user_message
          "hi").get_context).map Message.to_dict)
    ∧ UniAI.chatWire sampleStatePrompted "hi"
      = [{ role := "system", content := "be brief" },
         { role := "user", content := "q" },
         { role := "user", content := "hi" }] :=
  ⟨chat_wire_matches_context.1 sampleStatePrompted "hi" rfl, rfl⟩

end UniaiModel
